import Mathlib

/-!
Verification of the AI video-effects service (`ai-service`): a shallow
embedding of its detection post-processing utilities (`ai_utils.py`),
configuration manager (`ai_config.py`), and per-frame pipeline
(`stream_processor.py`, `main.py`), together with theorems checking the
specification's claims against the embedded code.

Numeric conventions: Python `int` is embedded as `ℤ`, Python `float`
as `ℚ` (exact arithmetic; the claims under study only involve exact
values such as 0, 1, 0.1, 0.4, 0.6).  External libraries (OpenCV,
MediaPipe) are embedded as abstract function parameters.
-/

/-! ### Detection post-processor (`ai_utils.py`)

`calculate_iou` takes boxes in `(x, y, w, h)` form with Python `int`
components. -/

/-- A bounding box `(x, y, w, h)`, as consumed by `calculate_iou`. -/
structure Box where
  x : ℤ
  y : ℤ
  w : ℤ
  h : ℤ
deriving DecidableEq

/-- `calculate_iou(box1, box2)` from `ai_utils.py` lines 370-391:
intersection over union of two `(x, y, w, h)` boxes, `0.0` when the
intersection is empty or the union is non-positive. -/
def calculate_iou (box1 box2 : Box) : ℚ :=
  let xi1 := max box1.x box2.x
  let yi1 := max box1.y box2.y
  let xi2 := min (box1.x + box1.w) (box2.x + box2.w)
  let yi2 := min (box1.y + box1.h) (box2.y + box2.h)
  if xi2 ≤ xi1 ∨ yi2 ≤ yi1 then 0
  else
    let intersection : ℚ := ((xi2 - xi1) * (yi2 - yi1) : ℤ)
    let area1 : ℚ := (box1.w * box1.h : ℤ)
    let area2 : ℚ := (box2.w * box2.h : ℤ)
    let union := area1 + area2 - intersection
    if union > 0 then intersection / union else 0

/-- The index sort performed by `non_max_suppression`:
`sorted(range(len(scores)), key=lambda i: scores[i], reverse=True)`.
Python's sort is stable, and `insertionSort` with the pointwise
descending-score comparison is a stable sort, so it computes the same
list. -/
def sorted_indices (scores : List ℚ) : List ℕ :=
  (List.range scores.length).insertionSort
    (fun i j => scores.getD j 0 ≤ scores.getD i 0)

/-- The `while indices:` loop of `non_max_suppression`: pop the head,
keep it, and drop every remaining index whose box has IOU `≥ threshold`
with the kept box.  The loop consumes at least one index per iteration,
so running it with fuel equal to the initial list length is exact. -/
def nms_keep (boxes : List Box) (threshold : ℚ) : ℕ → List ℕ → List ℕ
  | _, [] => []
  | 0, _ :: _ => []
  | fuel + 1, current :: rest =>
      current ::
        nms_keep boxes threshold fuel
          (rest.filter fun i =>
            decide (calculate_iou (boxes.getD current ⟨0, 0, 0, 0⟩)
              (boxes.getD i ⟨0, 0, 0, 0⟩) < threshold))

/-- `non_max_suppression(boxes, scores, threshold)` from `ai_utils.py`
lines 394-415. -/
def non_max_suppression (boxes : List Box) (scores : List ℚ)
    (threshold : ℚ) : List ℕ :=
  if boxes = [] then []
  else
    let indices := sorted_indices scores
    nms_keep boxes threshold indices.length indices

/-! ### Telemetry (`ai_utils.py`, `ProcessingStats`) -/

/-- The `ProcessingStats` dataclass.  `min_processing_time` starts at
`float('inf')`, embedded as `⊤ : WithTop ℚ`. -/
structure ProcessingStats where
  total_frames : ℤ
  total_processing_time : ℚ
  min_processing_time : WithTop ℚ
  max_processing_time : ℚ
  last_processing_time : ℚ
  dropped_frames : ℤ
  errors : ℤ
  processing_times : List ℚ
deriving DecidableEq

/-- The dataclass defaults of `ProcessingStats`. -/
def ProcessingStats.init : ProcessingStats :=
  { total_frames := 0
    total_processing_time := 0
    min_processing_time := ⊤
    max_processing_time := 0
    last_processing_time := 0
    dropped_frames := 0
    errors := 0
    processing_times := [] }

/-- `ProcessingStats.update(processing_time)`: bump the counters,
append the sample, and `pop(0)` when the window exceeds 100 entries. -/
def ProcessingStats.update (s : ProcessingStats) (processing_time : ℚ) :
    ProcessingStats :=
  let times := s.processing_times ++ [processing_time]
  { s with
    total_frames := s.total_frames + 1
    total_processing_time := s.total_processing_time + processing_time
    last_processing_time := processing_time
    min_processing_time := min s.min_processing_time (processing_time : WithTop ℚ)
    max_processing_time := max s.max_processing_time processing_time
    processing_times := if times.length > 100 then times.tail else times }

/-- `ProcessingStats.get_moving_average(window)`: `0.0` on an empty
window, otherwise the mean of `processing_times[-window:]`.  The Python
slice `l[-window:]` is the whole list when `window = 0` and the last
`window` elements otherwise, i.e. `l.drop (l.length - window)`. -/
def ProcessingStats.get_moving_average (s : ProcessingStats) (window : ℕ) : ℚ :=
  if s.processing_times = [] then 0
  else
    let recent :=
      if window = 0 then s.processing_times
      else s.processing_times.drop (s.processing_times.length - window)
    recent.sum / recent.length

/-- Feeding a list of samples to a fresh `ProcessingStats` through
successive `update` calls. -/
def applyUpdates (samples : List ℚ) : ProcessingStats :=
  samples.foldl ProcessingStats.update ProcessingStats.init

/-! ### Configuration manager (`ai_config.py`) -/

/-- The `ModelType` enum. -/
inductive ModelType where
  | SELFIE_SEGMENTATION
  | FACE_DETECTION
  | FACE_MESH
  | POSE_ESTIMATION
  | HAND_TRACKING
  | HOLISTIC
  | OBJECTRON
deriving DecidableEq

/-- `ModelType.value`: the string value of each enum member. -/
def ModelType.value : ModelType → String
  | .SELFIE_SEGMENTATION => "selfie_segmentation"
  | .FACE_DETECTION => "face_detection"
  | .FACE_MESH => "face_mesh"
  | .POSE_ESTIMATION => "pose"
  | .HAND_TRACKING => "hands"
  | .HOLISTIC => "holistic"
  | .OBJECTRON => "objectron"

/-- The `ModelConfig` dataclass.  `custom_options` is a free-form
`Dict[str, Any]`, embedded as a string association list. -/
structure ModelConfig where
  model_type : ModelType
  enabled : Bool
  min_detection_confidence : ℚ
  min_tracking_confidence : ℚ
  max_num_faces : ℤ
  max_num_hands : ℤ
  model_complexity : ℤ
  static_image_mode : Bool
  refine_landmarks : Bool
  enable_segmentation : Bool
  smooth_segmentation : Bool
  custom_options : List (String × String)
deriving DecidableEq

/-- The dataclass defaults of `ModelConfig` (everything except the
required `model_type` field). -/
def ModelConfig.init (t : ModelType) : ModelConfig :=
  { model_type := t
    enabled := true
    min_detection_confidence := 0.5
    min_tracking_confidence := 0.5
    max_num_faces := 1
    max_num_hands := 2
    model_complexity := 1
    static_image_mode := false
    refine_landmarks := true
    enable_segmentation := false
    smooth_segmentation := true
    custom_options := [] }

/-- The `ProcessingConfig` dataclass (with its defaults as `init`
below). -/
structure ProcessingConfig where
  target_fps : ℤ
  max_resolution : ℤ × ℤ
  enable_gpu : Bool
  thread_count : ℤ
  buffer_size : ℤ
  quality_preset : String
  debug_mode : Bool
  save_debug_frames : Bool
  debug_output_path : String
  enable_performance_logging : Bool
  performance_log_interval : ℤ
deriving DecidableEq

/-- The dataclass defaults of `ProcessingConfig`. -/
def ProcessingConfig.init : ProcessingConfig :=
  { target_fps := 30
    max_resolution := (1920, 1080)
    enable_gpu := false
    thread_count := 4
    buffer_size := 3
    quality_preset := "balanced"
    debug_mode := false
    save_debug_frames := false
    debug_output_path := "./debug_frames"
    enable_performance_logging := true
    performance_log_interval := 100 }

/-- The `DrawingConfig` dataclass (only the fields the embedded
operations read are listed; the rest are style constants untouched by
every operation under study). -/
structure DrawingConfig where
  landmark_color : ℤ × ℤ × ℤ
  connection_color : ℤ × ℤ × ℤ
  enable_labels : Bool
deriving DecidableEq

/-- The dataclass defaults of the embedded `DrawingConfig` fields. -/
def DrawingConfig.init : DrawingConfig :=
  { landmark_color := (0, 255, 0)
    connection_color := (0, 200, 0)
    enable_labels := true }

/-- The `AvatarConfig` dataclass (fields read by `to_dict` /
`from_dict`). -/
structure AvatarConfig where
  avatar_type : String
  face_scale : ℚ
  enable_expression_tracking : Bool
deriving DecidableEq

/-- The dataclass defaults of the embedded `AvatarConfig` fields. -/
def AvatarConfig.init : AvatarConfig :=
  { avatar_type := "cartoon"
    face_scale := 1.2
    enable_expression_tracking := true }

/-- The `BeautyFilterConfig` dataclass (fields read by `to_dict` /
`from_dict`). -/
structure BeautyFilterConfig where
  skin_smoothing : ℚ
  brightness : ℚ
  contrast : ℚ
deriving DecidableEq

/-- The dataclass defaults of the embedded `BeautyFilterConfig`
fields. -/
def BeautyFilterConfig.init : BeautyFilterConfig :=
  { skin_smoothing := 0.5
    brightness := 1.1
    contrast := 1.05 }

/-- The `AIConfigManager` state: the `models` dict (an insertion-ordered
`ModelType → ModelConfig` mapping, embedded as an association list) plus
the four config value objects. -/
structure AIConfigManager where
  models : List (ModelType × ModelConfig)
  processing : ProcessingConfig
  drawing : DrawingConfig
  avatar : AvatarConfig
  beauty : BeautyFilterConfig
deriving DecidableEq

/-- `AIConfigManager.__init__` and `_initialize_default_models`: the
five default model entries in insertion order. -/
def AIConfigManager.init : AIConfigManager :=
  { models :=
      [ (ModelType.SELFIE_SEGMENTATION,
          ModelConfig.init ModelType.SELFIE_SEGMENTATION),
        (ModelType.FACE_DETECTION,
          ModelConfig.init ModelType.FACE_DETECTION),
        (ModelType.FACE_MESH,
          ModelConfig.init ModelType.FACE_MESH),
        (ModelType.POSE_ESTIMATION,
          ModelConfig.init ModelType.POSE_ESTIMATION),
        (ModelType.HAND_TRACKING,
          ModelConfig.init ModelType.HAND_TRACKING) ]
    processing := ProcessingConfig.init
    drawing := DrawingConfig.init
    avatar := AvatarConfig.init
    beauty := BeautyFilterConfig.init }

/-- `AIConfigManager.set_quality_preset(preset)` from `ai_config.py`
lines 198-225: records the preset name, then — for the three known
presets only — overwrites the processing fps/resolution and rewrites
every model's complexity and confidences (`"quality"` also forces
`refine_landmarks = True`). -/
def AIConfigManager.set_quality_preset (cfg : AIConfigManager)
    (preset : String) : AIConfigManager :=
  let cfg :=
    { cfg with processing := { cfg.processing with quality_preset := preset } }
  if preset = "performance" then
    { cfg with
      processing :=
        { cfg.processing with target_fps := 30, max_resolution := (1280, 720) }
      models := cfg.models.map fun p =>
        (p.1, { p.2 with
                  model_complexity := 0
                  min_detection_confidence := 0.6
                  min_tracking_confidence := 0.6 }) }
  else if preset = "balanced" then
    { cfg with
      processing :=
        { cfg.processing with target_fps := 30, max_resolution := (1920, 1080) }
      models := cfg.models.map fun p =>
        (p.1, { p.2 with
                  model_complexity := 1
                  min_detection_confidence := 0.5
                  min_tracking_confidence := 0.5 }) }
  else if preset = "quality" then
    { cfg with
      processing :=
        { cfg.processing with target_fps := 24, max_resolution := (1920, 1080) }
      models := cfg.models.map fun p =>
        (p.1, { p.2 with
                  model_complexity := 2
                  min_detection_confidence := 0.4
                  min_tracking_confidence := 0.4
                  refine_landmarks := true }) }
  else cfg

/-- `ModelConfig.to_dict()`: the exported per-model dictionary, whose
keys are fixed in the source, embedded as a record. -/
structure ModelConfigDict where
  model_type : String
  enabled : Bool
  min_detection_confidence : ℚ
  min_tracking_confidence : ℚ
  max_num_faces : ℤ
  max_num_hands : ℤ
  model_complexity : ℤ
  static_image_mode : Bool
  refine_landmarks : Bool
  enable_segmentation : Bool
  smooth_segmentation : Bool
  custom_options : List (String × String)
deriving DecidableEq

/-- `ModelConfig.to_dict()` from `ai_config.py` lines 53-68. -/
def ModelConfig.to_dict (m : ModelConfig) : ModelConfigDict :=
  { model_type := m.model_type.value
    enabled := m.enabled
    min_detection_confidence := m.min_detection_confidence
    min_tracking_confidence := m.min_tracking_confidence
    max_num_faces := m.max_num_faces
    max_num_hands := m.max_num_hands
    model_complexity := m.model_complexity
    static_image_mode := m.static_image_mode
    refine_landmarks := m.refine_landmarks
    enable_segmentation := m.enable_segmentation
    smooth_segmentation := m.smooth_segmentation
    custom_options := m.custom_options }

/-- The `"processing"` section of the exported dictionary.  Each field
is optional because `from_dict` reads every key with `.get(key,
default)` — an importing dictionary may omit any of them. -/
structure ProcessingDict where
  target_fps : Option ℤ
  max_resolution : Option (ℤ × ℤ)
  enable_gpu : Option Bool
  quality_preset : Option String
deriving DecidableEq

/-- The `"drawing"` section of the exported dictionary. -/
structure DrawingDict where
  landmark_color : Option (ℤ × ℤ × ℤ)
  connection_color : Option (ℤ × ℤ × ℤ)
  enable_labels : Option Bool
deriving DecidableEq

/-- The `"avatar"` section of the exported dictionary. -/
structure AvatarDict where
  avatar_type : Option String
  face_scale : Option ℚ
  enable_expression_tracking : Option Bool
deriving DecidableEq

/-- The `"beauty"` section of the exported dictionary. -/
structure BeautyDict where
  skin_smoothing : Option ℚ
  brightness : Option ℚ
  contrast : Option ℚ
deriving DecidableEq

/-- The top-level configuration dictionary: sections are optional
(`from_dict` guards each with `if section in data`). -/
structure ConfigDict where
  models : Option (List (String × ModelConfigDict))
  processing : Option ProcessingDict
  drawing : Option DrawingDict
  avatar : Option AvatarDict
  beauty : Option BeautyDict
deriving DecidableEq

/-- `AIConfigManager.to_dict()` from `ai_config.py` lines 235-263:
exports every section with every key present. -/
def AIConfigManager.to_dict (cfg : AIConfigManager) : ConfigDict :=
  { models := some (cfg.models.map fun p => (p.1.value, p.2.to_dict))
    processing := some
      { target_fps := some cfg.processing.target_fps
        max_resolution := some cfg.processing.max_resolution
        enable_gpu := some cfg.processing.enable_gpu
        quality_preset := some cfg.processing.quality_preset }
    drawing := some
      { landmark_color := some cfg.drawing.landmark_color
        connection_color := some cfg.drawing.connection_color
        enable_labels := some cfg.drawing.enable_labels }
    avatar := some
      { avatar_type := some cfg.avatar.avatar_type
        face_scale := some cfg.avatar.face_scale
        enable_expression_tracking :=
          some cfg.avatar.enable_expression_tracking }
    beauty := some
      { skin_smoothing := some cfg.beauty.skin_smoothing
        brightness := some cfg.beauty.brightness
        contrast := some cfg.beauty.contrast } }

/-- `AIConfigManager.from_dict(data)` from `ai_config.py` lines
265-284: partial update — the `"processing"` section (with
`set_quality_preset` re-applied when a preset key is present), then
`"beauty"`, then `"avatar"`.  The `"models"` and `"drawing"` sections
are never read. -/
def AIConfigManager.from_dict (cfg : AIConfigManager) (data : ConfigDict) :
    AIConfigManager :=
  let cfg :=
    match data.processing with
    | none => cfg
    | some proc =>
        let cfg :=
          { cfg with
            processing :=
              { cfg.processing with
                target_fps := proc.target_fps.getD 30
                max_resolution := proc.max_resolution.getD (1920, 1080)
                enable_gpu := proc.enable_gpu.getD false } }
        match proc.quality_preset with
        | none => cfg
        | some preset => cfg.set_quality_preset preset
  let cfg :=
    match data.beauty with
    | none => cfg
    | some b =>
        { cfg with
          beauty :=
            { skin_smoothing := b.skin_smoothing.getD 0.5
              brightness := b.brightness.getD 1.1
              contrast := b.contrast.getD 1.05 } }
  match data.avatar with
  | none => cfg
  | some a =>
      { cfg with
        avatar :=
          { cfg.avatar with
            avatar_type := a.avatar_type.getD "cartoon"
            face_scale := a.face_scale.getD 1.2 } }

/-! ### Frame pipeline (`stream_processor.py`) -/

/-- A video frame: pixel payload (abstract type `Img`) plus the timing
metadata `recv` copies between frames (`pts`, `time_base`). -/
structure Frame (Img : Type) where
  pts : ℤ
  time_base : ℚ
  img : Img
deriving DecidableEq

/-- The per-mode renderers invoked by `recv`.  Their pixel-level
behaviour goes through OpenCV/MediaPipe inference, so each is an
abstract image transform; `apply_avatar` additionally reads the
track's `avatar_type` and (for the robot scan line) `frame_count`. -/
structure Effects (Img : Type) where
  apply_blur : Img → Img
  detect_faces : Img → Img
  estimate_pose : Img → Img
  apply_edge_detection : Img → Img
  apply_face_mesh : Img → Img
  apply_avatar : String → ℤ → Img → Img
  detect_hands : Img → Img
  apply_beauty_filter : Img → Img
  apply_cartoon_effect : Img → Img

/-- The mutable `AIStreamTrack` attributes that `recv` reads and
writes: `mode`, `avatar_type`, `frame_count`, `processing_times`. -/
structure TrackState where
  mode : String
  avatar_type : String
  frame_count : ℤ
  processing_times : List ℚ
deriving DecidableEq

/-- `AIStreamTrack.recv` from `stream_processor.py` lines 69-115,
applied to the frame pulled from the upstream track.  `elapsed` is the
wall-clock sample `time.time() - start_time` recorded for this call
(nondeterministic at run time, hence a parameter).  Under mode
`"none"` the input frame and the whole state are returned untouched;
every other mode (recognized or not) dispatches on the mode string
(unrecognized strings fall through with the image unchanged), bumps
`frame_count`, appends to the capped `processing_times` window, and
rebuilds a fresh output frame carrying the input frame's `pts` and
`time_base`. -/
def AIStreamTrack.recv {Img : Type} (fx : Effects Img) (st : TrackState)
    (frame : Frame Img) (elapsed : ℚ) : Frame Img × TrackState :=
  if st.mode = "none" then (frame, st)
  else
    let img := frame.img
    let img :=
      if st.mode = "blur" then fx.apply_blur img
      else if st.mode = "face-detection" then fx.detect_faces img
      else if st.mode = "pose-estimation" then fx.estimate_pose img
      else if st.mode = "edge-detection" then fx.apply_edge_detection img
      else if st.mode = "face-mesh" then fx.apply_face_mesh img
      else if st.mode = "avatar" then fx.apply_avatar st.avatar_type st.frame_count img
      else if st.mode = "hands" then fx.detect_hands img
      else if st.mode = "beauty" then fx.apply_beauty_filter img
      else if st.mode = "cartoon" then fx.apply_cartoon_effect img
      else img
    let times := st.processing_times ++ [elapsed]
    let times := if times.length > 100 then times.tail else times
    (⟨frame.pts, frame.time_base, img⟩,
      { st with frame_count := st.frame_count + 1, processing_times := times })

/-- The nine mode strings `recv` dispatches a renderer for (every
branch of its `if`/`elif` chain other than the `"none"` passthrough). -/
def handled_modes : List String :=
  ["blur", "face-detection", "pose-estimation", "edge-detection",
   "face-mesh", "avatar", "hands", "beauty", "cartoon"]

/-- The external OpenCV/MediaPipe operations used by
`AIStreamTrack._apply_blur`: BGR→RGB conversion, the selfie
segmentation mask (a per-pixel confidence in `[0,1]`), and
`cv2.GaussianBlur(image, (55, 55), 0)`.  Images are abstract pixel
grids `Pos → Pix`; the mask is per-pixel, so the 3-channel
`np.stack((mask,) * 3, axis=-1)` broadcast is already folded in. -/
structure BlurOps (Pos Pix : Type) where
  cvt_bgr2rgb : (Pos → Pix) → (Pos → Pix)
  segmentation_mask : (Pos → Pix) → (Pos → ℚ)
  gaussian_blur_55 : (Pos → Pix) → (Pos → Pix)

/-- `AIStreamTrack._apply_blur` from `stream_processor.py` lines
117-130: per-pixel select of the original image where the segmentation
mask is strictly above `0.1`, and of the Gaussian-blurred background
elsewhere (`np.where(condition, image, bg_image)`). -/
def AIStreamTrack.apply_blur {Pos Pix : Type} (ops : BlurOps Pos Pix)
    (image : Pos → Pix) : Pos → Pix :=
  let image_rgb := ops.cvt_bgr2rgb image
  let mask := ops.segmentation_mask image_rgb
  let bg_image := ops.gaussian_blur_55 image
  fun p => if mask p > 0.1 then image p else bg_image p

/-! ### HTTP control surface (`main.py`) -/

/-- `AVAILABLE_MODES` from `main.py` lines 39-50. -/
def AVAILABLE_MODES : List String :=
  ["none", "blur", "face-detection", "pose-estimation", "edge-detection",
   "face-mesh", "avatar", "hands", "beauty", "cartoon"]

/-- `AVATAR_TYPES` from `main.py` line 52. -/
def AVATAR_TYPES : List String := ["cartoon", "robot", "mask", "neon"]

/-- The mode validation in the `/offer` handler (`main.py` lines
90-92): an unrecognized mode is replaced by `"none"` before the
`AIStreamTrack` is constructed. -/
def offer_validate_mode (mode : String) : String :=
  if mode ∈ AVAILABLE_MODES then mode else "none"

/-- The avatar-type validation in the `/offer` handler (`main.py`
lines 93-94). -/
def offer_validate_avatar_type (avatar_type : String) : String :=
  if avatar_type ∈ AVATAR_TYPES then avatar_type else "cartoon"

/-! ### Helper lemmas about `calculate_iou` -/

/-- IOU is never negative: both the intersection and the union are
positive whenever the division branch is reached. -/
theorem calculate_iou_nonneg (b1 b2 : Box) : 0 ≤ calculate_iou b1 b2 := by
  simp only [calculate_iou]
  split_ifs with h1 h2
  · exact le_refl 0
  · push_neg at h1
    obtain ⟨hx, hy⟩ := h1
    apply div_nonneg _ (le_of_lt h2)
    have : (0 : ℤ) ≤ (min (b1.x + b1.w) (b2.x + b2.w) - max b1.x b2.x) *
        (min (b1.y + b1.h) (b2.y + b2.h) - max b1.y b2.y) :=
      mul_nonneg (by omega) (by omega)
    exact_mod_cast this
  · exact le_refl 0

/-- IOU never exceeds 1: the intersection area is at most either box's
area, hence at most the (inclusion–exclusion) union area. -/
theorem calculate_iou_le_one (b1 b2 : Box) : calculate_iou b1 b2 ≤ 1 := by
  simp only [calculate_iou]
  split_ifs with h1 h2
  · norm_num
  · rw [div_le_one h2]
    push_neg at h1
    obtain ⟨hx, hy⟩ := h1
    set xi1 := max b1.x b2.x with hxi1
    set yi1 := max b1.y b2.y with hyi1
    set xi2 := min (b1.x + b1.w) (b2.x + b2.w) with hxi2
    set yi2 := min (b1.y + b1.h) (b2.y + b2.h) with hyi2
    have hI1 : (xi2 - xi1) * (yi2 - yi1) ≤ b1.w * b1.h := by
      have h1x : xi2 - xi1 ≤ b1.w := by
        have := min_le_left (b1.x + b1.w) (b2.x + b2.w)
        have := le_max_left b1.x b2.x
        omega
      have h1y : yi2 - yi1 ≤ b1.h := by
        have := min_le_left (b1.y + b1.h) (b2.y + b2.h)
        have := le_max_left b1.y b2.y
        omega
      exact mul_le_mul h1x h1y (by omega) (by omega)
    have hI2 : (xi2 - xi1) * (yi2 - yi1) ≤ b2.w * b2.h := by
      have h2x : xi2 - xi1 ≤ b2.w := by
        have := min_le_right (b1.x + b1.w) (b2.x + b2.w)
        have := le_max_right b1.x b2.x
        omega
      have h2y : yi2 - yi1 ≤ b2.h := by
        have := min_le_right (b1.y + b1.h) (b2.y + b2.h)
        have := le_max_right b1.y b2.y
        omega
      exact mul_le_mul h2x h2y (by omega) (by omega)
    have hI1q : ((xi2 - xi1) * (yi2 - yi1) : ℚ) ≤ ((b1.w * b1.h : ℤ) : ℚ) := by
      exact_mod_cast hI1
    have hI2q : ((xi2 - xi1) * (yi2 - yi1) : ℚ) ≤ ((b2.w * b2.h : ℤ) : ℚ) := by
      exact_mod_cast hI2
    push_cast at hI1q hI2q ⊢
    linarith
  · norm_num

/-- C2 (counterexample): the claim "for every box A,
`calculate_iou(A, A) = 1.0`" fails on the degenerate box
`(0, 0, 0, 0)`, where the intersection test `xi2 <= xi1` fires and the
result is `0.0`. -/
theorem C2_iou_counterexample :
    calculate_iou ⟨0, 0, 0, 0⟩ ⟨0, 0, 0, 0⟩ ≠ 1 := by decide

/-- C2 (amended): `calculate_iou(A, A) = 1.0` for every box with
positive width and height (a degenerate box yields 0);
`calculate_iou` is symmetric for all boxes; and it is `0` whenever the
boxes do not overlap (their intersection extent is empty on either
axis). -/
theorem C2_iou_algebra :
    (∀ b : Box, 0 < b.w → 0 < b.h → calculate_iou b b = 1) ∧
    (∀ b1 b2 : Box, calculate_iou b1 b2 = calculate_iou b2 b1) ∧
    (∀ b1 b2 : Box,
      (min (b1.x + b1.w) (b2.x + b2.w) ≤ max b1.x b2.x ∨
        min (b1.y + b1.h) (b2.y + b2.h) ≤ max b1.y b2.y) →
      calculate_iou b1 b2 = 0) := by
  refine ⟨?_, ?_, ?_⟩
  · intro b hw hh
    simp only [calculate_iou, max_self, min_self]
    rw [if_neg (by omega)]
    have harea : ((b.w * b.h : ℤ) : ℚ) > 0 := by
      have : (0 : ℤ) < b.w * b.h := mul_pos hw hh
      exact_mod_cast this
    have hinter : (((b.x + b.w - b.x) * (b.y + b.h - b.y) : ℤ) : ℚ) =
        ((b.w * b.h : ℤ) : ℚ) := by norm_num
    rw [hinter, if_pos (by linarith)]
    have hne : ((b.w * b.h : ℤ) : ℚ) ≠ 0 := ne_of_gt harea
    field_simp
  · intro b1 b2
    simp only [calculate_iou]
    rw [max_comm b1.x b2.x, max_comm b1.y b2.y,
      min_comm (b1.x + b1.w) (b2.x + b2.w), min_comm (b1.y + b1.h) (b2.y + b2.h),
      add_comm ((b1.w * b1.h : ℤ) : ℚ) ((b2.w * b2.h : ℤ) : ℚ)]
  · intro b1 b2 h
    simp only [calculate_iou]
    rw [if_pos h]

/-- Witness for C2: the amended claim evaluated at the unit-area box
`(0, 0, 2, 2)` (IOU with itself is 1) and at the disjoint pair
`(0, 0, 2, 2)`, `(10, 10, 2, 2)` (IOU is 0). -/
theorem C2_iou_algebra_witness :
    calculate_iou ⟨0, 0, 2, 2⟩ ⟨0, 0, 2, 2⟩ = 1 ∧
    calculate_iou ⟨0, 0, 2, 2⟩ ⟨10, 10, 2, 2⟩ = 0 :=
  ⟨C2_iou_algebra.1 ⟨0, 0, 2, 2⟩ (by decide) (by decide),
   C2_iou_algebra.2.2 ⟨0, 0, 2, 2⟩ ⟨10, 10, 2, 2⟩ (by decide)⟩

/-! ### Quality presets (C3, C10, C8) -/

/-- C3: from any configuration state, `set_quality_preset("performance")`
sets `target_fps = 30`, `max_resolution = (1280, 720)`, and gives every
model `model_complexity = 0` and detection/tracking confidence `0.6`;
`set_quality_preset("quality")` sets `target_fps = 24`,
`max_resolution = (1920, 1080)`, and gives every model
`model_complexity = 2`, confidence `0.4`, and `refine_landmarks = true`
regardless of its prior value. -/
theorem C3_quality_presets (cfg : AIConfigManager) :
    ((cfg.set_quality_preset "performance").processing.target_fps = 30 ∧
     (cfg.set_quality_preset "performance").processing.max_resolution = (1280, 720) ∧
     ∀ p ∈ (cfg.set_quality_preset "performance").models,
       p.2.model_complexity = 0 ∧
       p.2.min_detection_confidence = 0.6 ∧
       p.2.min_tracking_confidence = 0.6) ∧
    ((cfg.set_quality_preset "quality").processing.target_fps = 24 ∧
     (cfg.set_quality_preset "quality").processing.max_resolution = (1920, 1080) ∧
     ∀ p ∈ (cfg.set_quality_preset "quality").models,
       p.2.model_complexity = 2 ∧
       p.2.min_detection_confidence = 0.4 ∧
       p.2.min_tracking_confidence = 0.4 ∧
       p.2.refine_landmarks = true) := by
  refine ⟨⟨?_, ?_, ?_⟩, ⟨?_, ?_, ?_⟩⟩
  · simp [AIConfigManager.set_quality_preset]
  · simp [AIConfigManager.set_quality_preset]
  · intro p hp
    simp [AIConfigManager.set_quality_preset, List.mem_map] at hp
    obtain ⟨q, w, _, rfl⟩ := hp
    simp
  · simp [AIConfigManager.set_quality_preset]
  · simp [AIConfigManager.set_quality_preset]
  · intro p hp
    simp [AIConfigManager.set_quality_preset, List.mem_map] at hp
    obtain ⟨q, w, _, rfl⟩ := hp
    simp

/-- The selfie-segmentation entry of the default model table after
`set_quality_preset("performance")`. -/
def segModelPerf : ModelType × ModelConfig :=
  (ModelType.SELFIE_SEGMENTATION,
    { ModelConfig.init ModelType.SELFIE_SEGMENTATION with
        model_complexity := 0
        min_detection_confidence := 0.6
        min_tracking_confidence := 0.6 })

/-- The selfie-segmentation entry of the default model table after
`set_quality_preset("quality")`. -/
def segModelQual : ModelType × ModelConfig :=
  (ModelType.SELFIE_SEGMENTATION,
    { ModelConfig.init ModelType.SELFIE_SEGMENTATION with
        model_complexity := 2
        min_detection_confidence := 0.4
        min_tracking_confidence := 0.4
        refine_landmarks := true })

/-- Witness for C3: the default configuration run through both
presets; its selfie-segmentation model picks up the preset's
complexity, confidences, and (for `"quality"`) the forced
`refine_landmarks`. -/
theorem C3_quality_presets_witness :
    ((AIConfigManager.init.set_quality_preset "performance").processing.target_fps = 30 ∧
      (segModelPerf.2.model_complexity = 0 ∧
        segModelPerf.2.min_detection_confidence = 0.6 ∧
        segModelPerf.2.min_tracking_confidence = 0.6)) ∧
    ((AIConfigManager.init.set_quality_preset "quality").processing.target_fps = 24 ∧
      (segModelQual.2.model_complexity = 2 ∧
        segModelQual.2.min_detection_confidence = 0.4 ∧
        segModelQual.2.min_tracking_confidence = 0.4 ∧
        segModelQual.2.refine_landmarks = true)) :=
  ⟨⟨(C3_quality_presets AIConfigManager.init).1.1,
    (C3_quality_presets AIConfigManager.init).1.2.2 segModelPerf
      (by simp [AIConfigManager.init, AIConfigManager.set_quality_preset,
        ModelConfig.init, segModelPerf])⟩,
   ⟨(C3_quality_presets AIConfigManager.init).2.1,
    (C3_quality_presets AIConfigManager.init).2.2.2 segModelQual
      (by simp [AIConfigManager.init, AIConfigManager.set_quality_preset,
        ModelConfig.init, segModelQual])⟩⟩

/-- C10: for a preset name other than `"performance"`, `"balanced"`,
`"quality"`, `set_quality_preset` records the name verbatim in
`processing.quality_preset` and changes nothing else (no `if`/`elif`
branch matches, and no error is raised: the function is total). -/
theorem C10_unknown_preset (cfg : AIConfigManager) (preset : String)
    (h1 : preset ≠ "performance") (h2 : preset ≠ "balanced")
    (h3 : preset ≠ "quality") :
    cfg.set_quality_preset preset =
      { cfg with processing := { cfg.processing with quality_preset := preset } } ∧
    (cfg.set_quality_preset preset).processing.quality_preset = preset ∧
    (cfg.set_quality_preset preset).processing.target_fps =
      cfg.processing.target_fps ∧
    (cfg.set_quality_preset preset).processing.max_resolution =
      cfg.processing.max_resolution ∧
    (cfg.set_quality_preset preset).models = cfg.models := by
  simp [AIConfigManager.set_quality_preset, h1, h2, h3]

/-- Witness for C10: the unknown preset name `"ultra"` applied to the
default configuration. -/
theorem C10_unknown_preset_witness :
    (AIConfigManager.init.set_quality_preset "ultra").processing.quality_preset =
      "ultra" ∧
    (AIConfigManager.init.set_quality_preset "ultra").models =
      AIConfigManager.init.models :=
  ⟨(C10_unknown_preset AIConfigManager.init "ultra"
      (by decide) (by decide) (by decide)).2.1,
   (C10_unknown_preset AIConfigManager.init "ultra"
      (by decide) (by decide) (by decide)).2.2.2.2⟩

/-- C8: after `set_quality_preset(p)` for each of the three preset
names, exporting with `to_dict` and re-importing with `from_dict`
leaves `processing.target_fps` and `processing.max_resolution`
unchanged (the import re-applies the exported preset, which rewrites
both fields to exactly the values the preset had installed). -/
theorem C8_roundtrip (cfg : AIConfigManager) :
    (((cfg.set_quality_preset "performance").from_dict
        (cfg.set_quality_preset "performance").to_dict).processing.target_fps =
      (cfg.set_quality_preset "performance").processing.target_fps ∧
     ((cfg.set_quality_preset "performance").from_dict
        (cfg.set_quality_preset "performance").to_dict).processing.max_resolution =
      (cfg.set_quality_preset "performance").processing.max_resolution) ∧
    (((cfg.set_quality_preset "balanced").from_dict
        (cfg.set_quality_preset "balanced").to_dict).processing.target_fps =
      (cfg.set_quality_preset "balanced").processing.target_fps ∧
     ((cfg.set_quality_preset "balanced").from_dict
        (cfg.set_quality_preset "balanced").to_dict).processing.max_resolution =
      (cfg.set_quality_preset "balanced").processing.max_resolution) ∧
    (((cfg.set_quality_preset "quality").from_dict
        (cfg.set_quality_preset "quality").to_dict).processing.target_fps =
      (cfg.set_quality_preset "quality").processing.target_fps ∧
     ((cfg.set_quality_preset "quality").from_dict
        (cfg.set_quality_preset "quality").to_dict).processing.max_resolution =
      (cfg.set_quality_preset "quality").processing.max_resolution) := by
  refine ⟨⟨?_, ?_⟩, ⟨?_, ?_⟩, ⟨?_, ?_⟩⟩ <;>
    simp [AIConfigManager.from_dict, AIConfigManager.to_dict,
      AIConfigManager.set_quality_preset]

/-! ### Per-frame pipeline theorems (C4, C5, C9, C7) -/

/-- C4: when the mode is `"none"`, `recv` returns the input frame
itself with the whole track state (in particular `frame_count` and
`processing_times`) untouched; for every other mode — the only other
branch — `frame_count` is incremented and a sample is appended to the
capped `processing_times` window. -/
theorem C4_none_passthrough {Img : Type} (fx : Effects Img) (st : TrackState)
    (frame : Frame Img) (t : ℚ) :
    (st.mode = "none" → AIStreamTrack.recv fx st frame t = (frame, st)) ∧
    (st.mode ≠ "none" →
      (AIStreamTrack.recv fx st frame t).2.frame_count = st.frame_count + 1 ∧
      (AIStreamTrack.recv fx st frame t).2.processing_times =
        (if (st.processing_times ++ [t]).length > 100
          then (st.processing_times ++ [t]).tail
          else st.processing_times ++ [t])) := by
  constructor
  · intro h
    simp [AIStreamTrack.recv, h]
  · intro h
    simp [AIStreamTrack.recv, h]

/-- A concrete `Effects` instance over the one-point image type, used
to instantiate the pipeline theorems. -/
def unitEffects : Effects Unit where
  apply_blur := id
  detect_faces := id
  estimate_pose := id
  apply_edge_detection := id
  apply_face_mesh := id
  apply_avatar := fun _ _ => id
  detect_hands := id
  apply_beauty_filter := id
  apply_cartoon_effect := id

/-- Witness for C4: a `"none"`-mode call passes the frame and state
through unchanged; a `"blur"`-mode call bumps the statistics. -/
theorem C4_none_passthrough_witness :
    AIStreamTrack.recv unitEffects ⟨"none", "cartoon", 0, []⟩ ⟨0, 1, ()⟩ 1 =
      (⟨0, 1, ()⟩, ⟨"none", "cartoon", 0, []⟩) ∧
    (AIStreamTrack.recv unitEffects ⟨"blur", "cartoon", 0, []⟩
        ⟨0, 1, ()⟩ 1).2.frame_count = 0 + 1 ∧
    (AIStreamTrack.recv unitEffects ⟨"blur", "cartoon", 0, []⟩
        ⟨0, 1, ()⟩ 1).2.processing_times =
      (if (([] : List ℚ) ++ [1]).length > 100
        then (([] : List ℚ) ++ [1]).tail
        else ([] : List ℚ) ++ [1]) :=
  ⟨(C4_none_passthrough unitEffects ⟨"none", "cartoon", 0, []⟩ ⟨0, 1, ()⟩ 1).1 rfl,
   (C4_none_passthrough unitEffects ⟨"blur", "cartoon", 0, []⟩ ⟨0, 1, ()⟩ 1).2
      (by decide) |>.1,
   (C4_none_passthrough unitEffects ⟨"blur", "cartoon", 0, []⟩ ⟨0, 1, ()⟩ 1).2
      (by decide) |>.2⟩

/-- C5: for every mode, avatar type, telemetry state and input frame,
the frame returned by `recv` carries exactly the input frame's `pts`
and `time_base` (either it is the input frame itself, or a rebuilt
frame onto which both fields are copied verbatim). -/
theorem C5_timing_preserved {Img : Type} (fx : Effects Img) (st : TrackState)
    (frame : Frame Img) (t : ℚ) :
    (AIStreamTrack.recv fx st frame t).1.pts = frame.pts ∧
    (AIStreamTrack.recv fx st frame t).1.time_base = frame.time_base := by
  unfold AIStreamTrack.recv
  split <;> simp

/-- C9: a mode string that is neither `"none"` nor one of the nine
handled effect modes falls through every dispatch branch of `recv`:
the pixel payload is returned untransformed, yet `frame_count` is
still incremented and a sample is still appended; the output is a
rebuilt frame with the input's `pts`/`time_base`, and the stored mode
is kept verbatim (not normalized).  Normalization of unrecognized
modes to `"none"` happens only in the `/offer` handler. -/
theorem C9_unrecognized_mode {Img : Type} (fx : Effects Img) (st : TrackState)
    (frame : Frame Img) (t : ℚ)
    (hm : st.mode ∉ handled_modes) (hn : st.mode ≠ "none") :
    (AIStreamTrack.recv fx st frame t).1.img = frame.img ∧
    (AIStreamTrack.recv fx st frame t).1.pts = frame.pts ∧
    (AIStreamTrack.recv fx st frame t).1.time_base = frame.time_base ∧
    (AIStreamTrack.recv fx st frame t).2.mode = st.mode ∧
    (AIStreamTrack.recv fx st frame t).2.frame_count = st.frame_count + 1 ∧
    (AIStreamTrack.recv fx st frame t).2.processing_times =
      (if (st.processing_times ++ [t]).length > 100
        then (st.processing_times ++ [t]).tail
        else st.processing_times ++ [t]) ∧
    (∀ m : String, m ∉ AVAILABLE_MODES → offer_validate_mode m = "none") := by
  simp only [handled_modes, List.mem_cons, List.not_mem_nil, or_false,
    not_or] at hm
  obtain ⟨h1, h2, h3, h4, h5, h6, h7, h8, h9⟩ := hm
  refine ⟨?_, ?_, ?_, ?_, ?_, ?_, ?_⟩ <;>
    try simp [AIStreamTrack.recv, hn, h1, h2, h3, h4, h5, h6, h7, h8, h9]
  intro m hmm
  simp [offer_validate_mode, hmm]

/-- Witness for C9: the enum value `"segmentation"` (present in
`ProcessingMode` but absent from both the dispatch chain and
`AVAILABLE_MODES`) leaves the pixel payload unchanged while the
statistics advance. -/
theorem C9_unrecognized_mode_witness :
    (AIStreamTrack.recv unitEffects ⟨"segmentation", "cartoon", 0, []⟩
        ⟨0, 1, ()⟩ 1).1.img = (⟨0, 1, ()⟩ : Frame Unit).img ∧
    (AIStreamTrack.recv unitEffects ⟨"segmentation", "cartoon", 0, []⟩
        ⟨0, 1, ()⟩ 1).2.frame_count = 0 + 1 :=
  ⟨(C9_unrecognized_mode unitEffects ⟨"segmentation", "cartoon", 0, []⟩
      ⟨0, 1, ()⟩ 1 (by decide) (by decide)).1,
   (C9_unrecognized_mode unitEffects ⟨"segmentation", "cartoon", 0, []⟩
      ⟨0, 1, ()⟩ 1 (by decide) (by decide)).2.2.2.2.1⟩

/-- C7: in `_apply_blur`, a pixel keeps its original value exactly
when its segmentation-mask value is strictly greater than `0.1`; at
mask value `≤ 0.1` — in particular exactly `0.1` — it receives the
Gaussian-blurred background pixel. -/
theorem C7_blur_threshold {Pos Pix : Type} (ops : BlurOps Pos Pix)
    (image : Pos → Pix) (p : Pos) :
    (ops.segmentation_mask (ops.cvt_bgr2rgb image) p > 0.1 →
      AIStreamTrack.apply_blur ops image p = image p) ∧
    (ops.segmentation_mask (ops.cvt_bgr2rgb image) p ≤ 0.1 →
      AIStreamTrack.apply_blur ops image p = ops.gaussian_blur_55 image p) ∧
    (ops.segmentation_mask (ops.cvt_bgr2rgb image) p = 0.1 →
      AIStreamTrack.apply_blur ops image p = ops.gaussian_blur_55 image p) := by
  refine ⟨?_, ?_, ?_⟩ <;> intro h
  · simp [AIStreamTrack.apply_blur, h]
  · simp [AIStreamTrack.apply_blur, not_lt.mpr h]
  · simp [AIStreamTrack.apply_blur, h]

/-- `BlurOps` instance whose mask reports exactly `0.1` everywhere:
the boundary case of the blur threshold. -/
def blurOpsBoundary : BlurOps Unit ℤ where
  cvt_bgr2rgb := id
  segmentation_mask := fun _ _ => 0.1
  gaussian_blur_55 := fun _ _ => 7

/-- `BlurOps` instance whose mask reports `1` everywhere: a clearly
foreground pixel. -/
def blurOpsForeground : BlurOps Unit ℤ where
  cvt_bgr2rgb := id
  segmentation_mask := fun _ _ => 1
  gaussian_blur_55 := fun _ _ => 7

/-- Witness for C7: with a mask of exactly `0.1` the pixel is replaced
by the blurred background (`7`), with a mask of `1` it keeps its
original value (`3`). -/
theorem C7_blur_threshold_witness :
    AIStreamTrack.apply_blur blurOpsBoundary (fun _ => 3) () = 7 ∧
    AIStreamTrack.apply_blur blurOpsForeground (fun _ => 3) () = 3 :=
  ⟨(C7_blur_threshold blurOpsBoundary (fun _ => 3) ()).2.2 rfl,
   (C7_blur_threshold blurOpsForeground (fun _ => 3) ()).1
      (by norm_num [blurOpsForeground])⟩


/-! ### Telemetry theorems (C6) -/

/-- The `processing_times` field after one `update`: append, then
`pop(0)` when the window exceeds 100. -/
theorem update_processing_times (s : ProcessingStats) (t : ℚ) :
    (s.update t).processing_times =
      (if (s.processing_times ++ [t]).length > 100
        then (s.processing_times ++ [t]).tail
        else s.processing_times ++ [t]) := rfl

/-- The append-then-pop step is "keep the last 100", provided the list
is at most one over the cap. -/
theorem cap_eq_drop (l : List ℚ) (hl : l.length ≤ 101) :
    (if l.length > 100 then l.tail else l) = l.drop (l.length - 100) := by
  split_ifs with h
  · have h101 : l.length = 101 := by omega
    rw [h101]
    exact (List.drop_one l).symm
  · have h0 : l.length - 100 = 0 := by omega
    rw [h0, List.drop_zero]

set_option maxRecDepth 4000 in
/-- Folding any sample list through `update` leaves, as the window,
exactly the last 100 elements of "prior window ++ samples". -/
theorem foldl_update_times (samples : List ℚ) :
    ∀ s : ProcessingStats, s.processing_times.length ≤ 100 →
      (samples.foldl ProcessingStats.update s).processing_times =
        (s.processing_times ++ samples).drop
          ((s.processing_times ++ samples).length - 100) := by
  induction samples with
  | nil =>
      intro s hs
      simp only [List.foldl_nil, List.append_nil]
      rw [Nat.sub_eq_zero_of_le hs, List.drop_zero]
  | cons t ts ih =>
      intro s hs
      rw [List.foldl_cons]
      have hlen : (s.processing_times ++ [t]).length ≤ 101 := by
        simp only [List.length_append, List.length_singleton]
        omega
      have hupd : (s.update t).processing_times =
          (s.processing_times ++ [t]).drop
            ((s.processing_times ++ [t]).length - 100) := by
        rw [update_processing_times]
        exact cap_eq_drop _ hlen
      have hupdlen : (s.update t).processing_times.length ≤ 100 := by
        rw [hupd, List.length_drop]
        omega
      rw [ih (s.update t) hupdlen, hupd]
      rw [← List.drop_append_of_le_length
        (Nat.sub_le (s.processing_times ++ [t]).length 100)]
      rw [List.drop_drop]
      have hassoc : s.processing_times ++ t :: ts =
          (s.processing_times ++ [t]) ++ ts := by
        simp
      rw [hassoc]
      congr 1
      simp only [List.length_append, List.length_drop, List.length_singleton,
        List.length_cons]
      omega

/-- C6: after any sequence of `update` calls the window holds at most
100 entries and is exactly the last 100 samples fed (oldest dropped
first); after 150 updates it is exactly the last 100; and
`get_moving_average(30)` is the arithmetic mean of the last 30 samples
(of all of them when fewer than 30 exist). -/
theorem C6_stats_window (samples : List ℚ) :
    (applyUpdates samples).processing_times.length ≤ 100 ∧
    (applyUpdates samples).processing_times =
      samples.drop (samples.length - 100) ∧
    (samples.length = 150 →
      (applyUpdates samples).processing_times = samples.drop 50) ∧
    (samples ≠ [] →
      (applyUpdates samples).get_moving_average 30 =
        (samples.drop (samples.length - 30)).sum /
          ((samples.drop (samples.length - 30)).length : ℚ)) := by
  have htimes : (applyUpdates samples).processing_times =
      samples.drop (samples.length - 100) := by
    have := foldl_update_times samples ProcessingStats.init (by simp [ProcessingStats.init])
    simpa [applyUpdates, ProcessingStats.init] using this
  refine ⟨?_, htimes, ?_, ?_⟩
  · rw [htimes, List.length_drop]
    omega
  · intro h150
    rw [htimes, h150]
  · intro hne
    have hlen0 : 0 < samples.length := List.length_pos.mpr hne
    have hwne : (applyUpdates samples).processing_times ≠ [] := by
      rw [htimes, ← List.length_pos, List.length_drop]
      omega
    rw [ProcessingStats.get_moving_average, if_neg hwne]
    simp only [if_neg (by norm_num : ¬ (30 = 0))]
    rw [htimes, List.drop_drop, List.length_drop]
    have hidx : samples.length - 100 +
        (samples.length - (samples.length - 100) - 30) =
        samples.length - 30 := by omega
    rw [hidx]

/-- The concrete sample list for the C6 witness: 150 updates. -/
def exSamples : List ℚ := List.replicate 150 1

/-- Witness for C6: feeding 150 samples leaves exactly the last 100 in
the window, and the moving average over 30 is the mean of the last
30. -/
theorem C6_stats_window_witness :
    (applyUpdates exSamples).processing_times = exSamples.drop 50 ∧
    (applyUpdates exSamples).get_moving_average 30 =
      (exSamples.drop (exSamples.length - 30)).sum /
        ((exSamples.drop (exSamples.length - 30)).length : ℚ) :=
  ⟨(C6_stats_window exSamples).2.2.1 (by simp [exSamples]),
   (C6_stats_window exSamples).2.2.2 (by simp [exSamples])⟩

/-! ### Non-max suppression theorems (C1) -/

/-- The sorted index list is a permutation of `range scores.length`. -/
theorem sorted_indices_perm (scores : List ℚ) :
    (sorted_indices scores).Perm (List.range scores.length) :=
  List.perm_insertionSort _ _

/-- The sorted index list has pairwise descending scores. -/
theorem sorted_indices_pairwise (scores : List ℚ) :
    (sorted_indices scores).Pairwise
      (fun i j => scores.getD j 0 ≤ scores.getD i 0) := by
  haveI : IsTotal ℕ (fun i j => scores.getD j 0 ≤ scores.getD i 0) :=
    ⟨fun _ _ => le_total _ _⟩
  haveI : IsTrans ℕ (fun i j => scores.getD j 0 ≤ scores.getD i 0) :=
    ⟨fun _ _ _ h1 h2 => le_trans h2 h1⟩
  exact List.sorted_insertionSort _ _

/-- The sorted index list has no duplicates. -/
theorem sorted_indices_nodup (scores : List ℚ) :
    (sorted_indices scores).Nodup :=
  (sorted_indices_perm scores).symm.nodup (List.nodup_range _)

/-- Every member of the sorted index list is a valid score index. -/
theorem sorted_indices_mem (scores : List ℚ) :
    ∀ i ∈ sorted_indices scores, i < scores.length := fun i hi =>
  List.mem_range.mp ((sorted_indices_perm scores).mem_iff.mp hi)

/-- When every pair of distinct surviving indices has IOU strictly
below the threshold, the suppression loop keeps everything. -/
theorem nms_keep_of_all_lt (boxes : List Box) (threshold : ℚ) :
    ∀ (fuel : ℕ) (l : List ℕ), l.length ≤ fuel → l.Nodup →
      (∀ c ∈ l, ∀ i ∈ l, c ≠ i →
        calculate_iou (boxes.getD c ⟨0, 0, 0, 0⟩)
          (boxes.getD i ⟨0, 0, 0, 0⟩) < threshold) →
      nms_keep boxes threshold fuel l = l := by
  intro fuel
  induction fuel with
  | zero =>
      intro l hl _ _
      have : l = [] := List.length_eq_zero.mp (Nat.le_zero.mp hl)
      subst this
      rfl
  | succ n ih =>
      intro l hl hnd hiou
      cases l with
      | nil => rfl
      | cons c rest =>
          have hcnotin : c ∉ rest := (List.nodup_cons.mp hnd).1
          have hfilter : (rest.filter fun i =>
              decide (calculate_iou (boxes.getD c ⟨0, 0, 0, 0⟩)
                (boxes.getD i ⟨0, 0, 0, 0⟩) < threshold)) = rest := by
            apply List.filter_eq_self.mpr
            intro i hi
            apply decide_eq_true
            exact hiou c (List.mem_cons_self c rest) i
              (List.mem_cons_of_mem c hi) (fun h => hcnotin (h ▸ hi))
          simp only [nms_keep, hfilter]
          rw [ih rest (by simpa using hl) (List.nodup_cons.mp hnd).2
            (fun a ha i hi hne => hiou a (List.mem_cons_of_mem c ha) i
              (List.mem_cons_of_mem c hi) hne)]

/-- The suppression loop on an empty index list yields nothing,
whatever the fuel. -/
theorem nms_keep_nil (boxes : List Box) (threshold : ℚ) (fuel : ℕ) :
    nms_keep boxes threshold fuel [] = [] := by
  cases fuel <;> rfl

/-- C1 (amended): `NMS(boxes, scores, threshold=1.0)` returns all
indices in descending-score order for every list of boxes with
matching scores in which no two distinct boxes have IOU exactly 1
(a pair of fully-coincident boxes is suppressed even at threshold 1,
because the discard test is `IOU ≥ threshold`); and on a *nonempty*
list of fully-overlapping boxes (pairwise IOU = 1),
`NMS(..., threshold=0.0)` returns only the single top-scored index. -/
theorem C1_nms_threshold_endpoints :
    (∀ (boxes : List Box) (scores : List ℚ),
      boxes.length = scores.length →
      (∀ i, i < boxes.length → ∀ j, j < boxes.length → i ≠ j →
        calculate_iou (boxes.getD i ⟨0, 0, 0, 0⟩)
          (boxes.getD j ⟨0, 0, 0, 0⟩) ≠ 1) →
      (non_max_suppression boxes scores 1).Perm (List.range boxes.length) ∧
      (non_max_suppression boxes scores 1).Pairwise
        (fun i j => scores.getD j 0 ≤ scores.getD i 0)) ∧
    (∀ (boxes : List Box) (scores : List ℚ),
      boxes ≠ [] → boxes.length = scores.length →
      (∀ i, i < boxes.length → ∀ j, j < boxes.length → i ≠ j →
        calculate_iou (boxes.getD i ⟨0, 0, 0, 0⟩)
          (boxes.getD j ⟨0, 0, 0, 0⟩) = 1) →
      ∃ k, non_max_suppression boxes scores 0 = [k] ∧ k < boxes.length ∧
        ∀ j, j < boxes.length → scores.getD j 0 ≤ scores.getD k 0) := by
  constructor
  · intro boxes scores hlen hiou
    by_cases hb : boxes = []
    · subst hb
      have hs : scores.length = 0 := by simpa using hlen.symm
      simp [non_max_suppression, hs]
    · rw [non_max_suppression, if_neg hb]
      have hpairs : ∀ c ∈ sorted_indices scores, ∀ i ∈ sorted_indices scores,
          c ≠ i → calculate_iou (boxes.getD c ⟨0, 0, 0, 0⟩)
            (boxes.getD i ⟨0, 0, 0, 0⟩) < 1 := by
        intro c hc i hi hne
        refine lt_of_le_of_ne (calculate_iou_le_one _ _) ?_
        exact hiou c (hlen ▸ sorted_indices_mem scores c hc)
          i (hlen ▸ sorted_indices_mem scores i hi) hne
      rw [nms_keep_of_all_lt boxes 1 (sorted_indices scores).length
        (sorted_indices scores) le_rfl (sorted_indices_nodup scores) hpairs]
      constructor
      · rw [hlen]
        exact sorted_indices_perm scores
      · exact sorted_indices_pairwise scores
  · intro boxes scores hb hlen hiou
    have hslen : 0 < scores.length := by
      rw [← hlen]
      exact List.length_pos.mpr hb
    obtain ⟨k, rest, hsort⟩ : ∃ k rest, sorted_indices scores = k :: rest := by
      cases hcase : sorted_indices scores with
      | nil =>
          exfalso
          have hlen2 : (sorted_indices scores).length = scores.length := by
            simpa using (sorted_indices_perm scores).length_eq
          rw [hcase] at hlen2
          simp at hlen2
          omega
      | cons a l => exact ⟨a, l, rfl⟩
    rw [non_max_suppression, if_neg hb, hsort]
    have hfilter : (rest.filter fun i =>
        decide (calculate_iou (boxes.getD k ⟨0, 0, 0, 0⟩)
          (boxes.getD i ⟨0, 0, 0, 0⟩) < 0)) = [] := by
      apply List.filter_eq_nil_iff.mpr
      intro i _
      simp only [decide_eq_true_eq]
      exact not_lt.mpr (calculate_iou_nonneg _ _)
    simp only [List.length_cons, nms_keep, hfilter, nms_keep_nil]
    refine ⟨k, rfl, ?_, ?_⟩
    · have hk : k ∈ sorted_indices scores := by
        rw [hsort]
        exact List.mem_cons_self k rest
      exact hlen ▸ sorted_indices_mem scores k hk
    · intro j hj
      have hjmem : j ∈ sorted_indices scores :=
        (sorted_indices_perm scores).mem_iff.mpr
          (List.mem_range.mpr (hlen ▸ hj))
      rw [hsort] at hjmem
      rcases List.mem_cons.mp hjmem with h | h
      · subst h
        exact le_refl _
      · have hpair := sorted_indices_pairwise scores
        rw [hsort] at hpair
        exact (List.pairwise_cons.mp hpair).1 j h

/-- C1 (counterexample): with two *identical* boxes (pairwise IOU
exactly 1) and scores `[1, 2]`, `NMS(threshold=1.0)` suppresses the
lower-scored duplicate — the discard test is `IOU ≥ threshold` — and
returns `[1]`, not all indices `[1, 0]` as the claim states. -/
theorem C1_nms_counterexample :
    non_max_suppression [⟨0, 0, 2, 2⟩, ⟨0, 0, 2, 2⟩] [1, 2] 1 = [1] ∧
    non_max_suppression [⟨0, 0, 2, 2⟩, ⟨0, 0, 2, 2⟩] [1, 2] 1 ≠ [1, 0] := by
  have hiou : calculate_iou ⟨0, 0, 2, 2⟩ ⟨0, 0, 2, 2⟩ = 1 := by
    norm_num [calculate_iou]
  have hsort : sorted_indices [1, 2] = [1, 0] := by
    have h21 : ¬ ((2 : ℚ) ≤ 1) := by norm_num
    simp [sorted_indices, List.range_succ, List.insertionSort,
      List.orderedInsert, h21]
  have hres : non_max_suppression [⟨0, 0, 2, 2⟩, ⟨0, 0, 2, 2⟩] [1, 2] 1 = [1] := by
    rw [non_max_suppression, if_neg (by decide), hsort]
    simp [nms_keep, hiou]
  exact ⟨hres, by rw [hres]; decide⟩

/-- Witness for C1: the amended claim evaluated on two disjoint boxes
(threshold 1 keeps both indices, higher score first) and on a
singleton box (threshold 0 keeps exactly the top index). -/
theorem C1_nms_threshold_endpoints_witness :
    ((non_max_suppression [⟨0, 0, 2, 2⟩, ⟨10, 10, 2, 2⟩] [1, 2] 1).Perm
        (List.range 2) ∧
      (non_max_suppression [⟨0, 0, 2, 2⟩, ⟨10, 10, 2, 2⟩] [1, 2] 1).Pairwise
        (fun i j => [(1 : ℚ), 2].getD j 0 ≤ [(1 : ℚ), 2].getD i 0)) ∧
    (∃ k, non_max_suppression [⟨0, 0, 1, 1⟩] [5] 0 = [k] ∧ k < 1 ∧
      ∀ j, j < 1 → [(5 : ℚ)].getD j 0 ≤ [(5 : ℚ)].getD k 0) :=
  ⟨C1_nms_threshold_endpoints.1 [⟨0, 0, 2, 2⟩, ⟨10, 10, 2, 2⟩] [1, 2]
      (by decide) (by decide),
   C1_nms_threshold_endpoints.2 [⟨0, 0, 1, 1⟩] [5]
      (by decide) (by decide) (by decide)⟩
